import Mathlib

/-!
Shallow embedding of the payday-loan dashboard (`streamlit_app.py`).

Numbers are modelled by `ℚ`: every value the program manipulates comes from
spreadsheet cells or numeric input widgets, and all arithmetic involved in the
claims is exact on the sample values.  A spreadsheet cell is either missing
(`NaN`), a string, or a number; `pd.to_numeric(..., errors="coerce")` is
modelled by `toNumericCell` with a decimal-literal parser standing in for the
pandas numeric reader.
-/

/-- A spreadsheet cell: missing (`NaN`), a string, or a numeric value. -/
inductive Cell where
  | empty : Cell
  | str : String → Cell
  | num : ℚ → Cell
deriving DecidableEq

/-- `pd.isna` on a cell: only the missing cell counts as NA. -/
def Cell.isNA : Cell → Bool
  | Cell.empty => true
  | _ => false

/-- Numeric value of a digit string, most significant first. -/
def digitsVal (cs : List Char) : Nat :=
  cs.foldl (fun n c => n * 10 + (c.toNat - 48)) 0

/-- Whitespace, as stripped by Python `str.strip` and the pandas readers. -/
def isSpaceChar (c : Char) : Bool :=
  c = ' ' ∨ c = '\t' ∨ c = '\n' ∨ c = '\r'

/-- `str.strip()`: drop whitespace from both ends. -/
def stripString (s : String) : String :=
  ⟨((s.toList.dropWhile isSpaceChar).reverse.dropWhile isSpaceChar).reverse⟩

/-- Model of the pandas numeric reader used by `pd.to_numeric`: optional
surrounding whitespace, optional sign, decimal digits with an optional
fractional part.  Anything else fails to parse. -/
def parseRat (s : String) : Option ℚ :=
  let cs := (stripString s).toList
  let sgn : ℚ := match cs with
    | '-' :: _ => -1
    | _ => 1
  let ds : List Char := match cs with
    | '-' :: t => t
    | '+' :: t => t
    | _ => cs
  let ip := ds.takeWhile (fun c => c ≠ '.')
  match ds.dropWhile (fun c => c ≠ '.') with
  | [] =>
      if ip ≠ [] ∧ ip.all Char.isDigit then some (sgn * digitsVal ip) else none
  | _ :: fp =>
      if (ip ≠ [] ∨ fp ≠ []) ∧ ip.all Char.isDigit ∧ fp.all Char.isDigit
      then some (sgn * ((digitsVal ip : ℚ) + (digitsVal fp : ℚ) / (10 : ℚ) ^ fp.length))
      else none

/-- `pd.to_numeric(cell, errors="coerce")`: numbers stay, parsable strings
become numbers, everything else becomes missing (not zero). -/
def toNumericCell : Cell → Cell
  | Cell.num q => Cell.num q
  | Cell.str s =>
      match parseRat s with
      | some q => Cell.num q
      | none => Cell.empty
  | Cell.empty => Cell.empty

/-- `LoanCalculator` (lines 43-60): four numeric fields taken from one row. -/
structure LoanCalculator where
  loan_amount : ℚ
  interest : ℚ
  late_fee : ℚ
  duration : ℚ
deriving DecidableEq

/-- `total_repayment` (lines 50-51). -/
def LoanCalculator.total_repayment (c : LoanCalculator) : ℚ :=
  c.loan_amount + c.interest + c.late_fee

/-- `calculate_apr` (lines 53-57): guarded against division by zero, then
`daily_interest * 365 / duration * 100` with `daily_interest = interest / loan_amount`. -/
def LoanCalculator.calculate_apr (c : LoanCalculator) : ℚ :=
  if c.loan_amount = 0 ∨ c.duration = 0 then 0
  else c.interest / c.loan_amount * 365 / c.duration * 100

/-- `calculate_monthly_payment` (lines 59-60). -/
def LoanCalculator.calculate_monthly_payment (c : LoanCalculator) : ℚ :=
  c.total_repayment / max (c.duration / 30) 1

/-!
Session state synchronizer (`sync_roi_and_investment`, lines 63-77).

Lines 64-67 guarantee that `initial_investment` and `roi_percentage` are
present in the session state before any widget callback can run, so the state
type carries them as plain values.  `investment_amount` is read by both
callbacks but never written anywhere in the program, so it is carried as an
`Option`: reading it while absent raises `KeyError` in Python, and dividing by
it when it is `0.0` raises `ZeroDivisionError`; both are modelled by
`Except.error`.
-/

structure SyncState where
  initial_investment : ℚ
  roi_percentage : ℚ
  investment_amount : Option ℚ
deriving DecidableEq

/-- Lines 64-67: missing fields receive the defaults 1000.0 and 5.0. -/
def sync_roi_and_investment (inv roi investment : Option ℚ) : SyncState :=
  { initial_investment := inv.getD 1000
    roi_percentage := roi.getD 5
    investment_amount := investment }

/-- `update_investment` (lines 70-71): recompute `initial_investment` from
`roi_percentage` and `investment_amount`. -/
def update_investment (st : SyncState) : Except String SyncState :=
  match st.investment_amount with
  | none => Except.error "KeyError: \x27investment_amount\x27"
  | some ia =>
      Except.ok { st with initial_investment := st.roi_percentage / 100 * ia }

/-- `update_roi` (lines 73-74): recompute `roi_percentage` from
`initial_investment` and `investment_amount`. -/
def update_roi (st : SyncState) : Except String SyncState :=
  match st.investment_amount with
  | none => Except.error "KeyError: \x27investment_amount\x27"
  | some ia =>
      if ia = 0 then Except.error "ZeroDivisionError: float division by zero"
      else Except.ok { st with roi_percentage := st.initial_investment / ia * 100 }

/-- A user edit of the `roi_percentage` widget (line 77): the widget commits
the new value to the session state, then fires `update_investment`. -/
def editRoi (st : SyncState) (x : ℚ) : Except String SyncState :=
  update_investment { st with roi_percentage := x }

/-- A user edit of the `initial_investment` widget (line 76): the widget
commits the new value, then fires `update_roi`. -/
def editInvestment (st : SyncState) (x : ℚ) : Except String SyncState :=
  update_roi { st with initial_investment := x }

/-- Late-fee extraction for the selected row (line 120): keep the cell if it
is not null, otherwise use `0.0`. -/
def extract_late_fee (c : Cell) : Cell :=
  if c.isNA then Cell.num 0 else c

/-!
Data loader (`load_loan_data`, lines 8-40).

An uploaded workbook is a list of named sheets of cell rows.  `pd.ExcelFile`
itself can raise, so the loader input is `Except String Workbook`: the error
carries the exception text, and the surrounding `try`/`except` turns it into
the `LoadError` report.  `excel_data.parse` promotes the sheet's first row to
the pandas header; the code then re-promotes the first *data* row (the sheet's
second row) with `loan_data.columns = loan_data.iloc[0]` and drops it, so with
fewer than two rows `iloc[0]` raises `IndexError` (caught by the same
`except`).  Column labels that are not strings become `NaN` under
`.str.strip()`, hence `Option String` labels.
-/

structure Sheet where
  name : String
  rows : List (List Cell)
deriving DecidableEq

structure Workbook where
  sheets : List Sheet
deriving DecidableEq

structure DataFrame where
  cols : List (Option String)
  rows : List (List Cell)
deriving DecidableEq

/-- The three failure classes of §7: missing sheet, missing columns, and the
catch-all wrapping an exception text. -/
inductive LoadErr where
  | missingSheet : LoadErr
  | missingColumns : LoadErr
  | loadError : String → LoadErr
deriving DecidableEq

/-- The `required_columns` list (line 24). -/
def requiredColumns : List String :=
  ["Loan ID", "Loan Amount ($C)", "Duration", "Interest ($C)",
   "Late Fee & Interest ($C)", "Total Payment ($C)"]

/-- The five columns coerced to numeric (line 30). -/
def numericColumns : List String :=
  ["Loan Amount ($C)", "Interest ($C)", "Late Fee & Interest ($C)",
   "Total Payment ($C)", "Duration"]

/-- Header promotion plus `.str.strip()` (lines 19-21): a string cell becomes
a trimmed label, any other cell becomes a `NaN` label (pandas string accessors
map non-string entries of a mixed header to `NaN`).  The model totalizes the
accessor: when the promoted header holds no string at all, pandas raises
`AttributeError` (caught by line 38's catch-all, still yielding no dataset)
where this model reports the missing columns instead; no load can succeed on
such a header either way, since success requires six string labels. -/
def headerName : Cell → Option String
  | Cell.str s => some (stripString s)
  | _ => none

/-- Whether a column label is one of the five numeric-coerced columns. -/
def isNumericLabel : Option String → Bool
  | some n => numericColumns.contains n
  | none => false

/-- Apply the per-column numeric coercion (lines 30-31) across one row,
positionally against the column labels; cells beyond the row's end are the
`NaN` padding of a ragged sheet. -/
def coerceRow : List (Option String) → List Cell → List Cell
  | [], _ => []
  | oc :: cs, [] =>
      (if isNumericLabel oc then toNumericCell Cell.empty else Cell.empty) :: coerceRow cs []
  | oc :: cs, c :: rest =>
      (if isNumericLabel oc then toNumericCell c else c) :: coerceRow cs rest

/-- All positions carrying a given label.  Column labels need not be unique:
pandas keeps duplicate labels, and label-based operations act on every
occurrence, so the model indexes a label by the full list of its positions. -/
def colIndices : List (Option String) → String → List Nat
  | [], _ => []
  | oc :: cs, nm =>
      if oc = some nm then 0 :: (colIndices cs nm).map (· + 1)
      else (colIndices cs nm).map (· + 1)

/-- The `dropna(subset=required_columns)` row test (line 34): the subset is
expanded over duplicate labels, so a row survives iff every column whose
label is one of the six required names is non-missing. -/
def rowValid (cols : List (Option String)) (row : List Cell) : Bool :=
  requiredColumns.all (fun rc =>
    (colIndices cols rc).all (fun i => !(row.getD i Cell.empty).isNA))

/-- Positions selected by `loan_data[required_columns]` (line 36): for each
required name in order, every column bearing that name. -/
def selectIdxs (cols : List (Option String)) : List Nat :=
  (requiredColumns.map (fun rc => colIndices cols rc)).flatten

/-- The final projection `loan_data[required_columns]` (line 36), which
returns every column matching each requested name. -/
def projectRow (cols : List (Option String)) (row : List Cell) : List Cell :=
  (selectIdxs cols).map (fun i => row.getD i Cell.empty)

/-- Column labels of the projected output. -/
def outCols (cols : List (Option String)) : List (Option String) :=
  (selectIdxs cols).map (fun i => cols.getD i none)

/-- `load_loan_data` (lines 8-40).  The numeric-coercion loop (lines 30-31)
indexes one column label at a time; if a numeric label is duplicated,
`loan_data[col]` is a DataFrame and `pd.to_numeric` raises `TypeError`,
caught by line 38's catch-all.  A duplicated `Loan ID` label raises nothing:
`dropna` checks both occurrences and the final selection returns both. -/
def load_loan_data (input : Except String Workbook) : Except LoadErr DataFrame :=
  match input with
  | Except.error e => Except.error (LoadErr.loadError e)
  | Except.ok wb =>
    match wb.sheets.find? (fun s => s.name == "Loan Data") with
    | none => Except.error LoadErr.missingSheet
    | some sheet =>
      match sheet.rows with
      | [] => Except.error (LoadErr.loadError "single positional indexer is out-of-bounds")
      | [_] => Except.error (LoadErr.loadError "single positional indexer is out-of-bounds")
      | _ :: hdr :: dataRows =>
        if requiredColumns.all (fun rc => (hdr.map headerName).contains (some rc)) then
          if numericColumns.all (fun nm =>
              (colIndices (hdr.map headerName) nm).length == 1) then
            Except.ok
              { cols := outCols (hdr.map headerName)
                rows := ((dataRows.map (coerceRow (hdr.map headerName))).filter
                  (rowValid (hdr.map headerName))).map (projectRow (hdr.map headerName)) }
          else Except.error
            (LoadErr.loadError "arg must be a list, tuple, 1-d array, or Series")
        else Except.error LoadErr.missingColumns

/-- Text of the `st.error` report for each failure class (lines 14, 26, 39). -/
def reportMessage : LoadErr → String
  | LoadErr.missingSheet => "The uploaded file must contain a sheet named \x27Loan Data\x27."
  | LoadErr.missingColumns => "The \x27Loan Data\x27 sheet must contain all required columns."
  | LoadErr.loadError e => "Error loading data: " ++ e

/-- What the caller (line 103-104) receives: `None` on every failure path. -/
def datasetOf (r : Except LoadErr DataFrame) : Option DataFrame :=
  match r with
  | Except.ok df => some df
  | Except.error _ => none

/-!
## Loader helper lemmas
-/

theorem toNumericCell_num_or_empty (c : Cell) :
    toNumericCell c = Cell.empty ∨ ∃ q, toNumericCell c = Cell.num q := by
  cases c with
  | empty => left; rfl
  | num q => right; exact ⟨q, rfl⟩
  | str s =>
    cases hp : parseRat s with
    | none => left; simp [toNumericCell, hp]
    | some q => right; exact ⟨q, by simp [toNumericCell, hp]⟩

/-- The number of columns bearing a label is the label's multiplicity in the
header. -/
theorem colIndices_length (cols : List (Option String)) (nm : String) :
    (colIndices cols nm).length = cols.count (some nm) := by
  induction cols with
  | nil => rfl
  | cons oc cs ih =>
    simp only [colIndices]
    by_cases h : oc = some nm
    · rw [if_pos h]
      simp [List.count_cons, h, ih]
    · rw [if_neg h]
      simp [List.count_cons, h, ih]

/-- Every index returned for a label does carry that label. -/
theorem colIndices_getD (cols : List (Option String)) (nm : String) (i : Nat)
    (h : i ∈ colIndices cols nm) : cols.getD i none = some nm := by
  induction cols generalizing i with
  | nil => simp [colIndices] at h
  | cons oc cs ih =>
    simp only [colIndices] at h
    by_cases hoc : oc = some nm
    · rw [if_pos hoc] at h
      rcases List.mem_cons.mp h with h0 | hmem
      · subst h0
        simpa using hoc
      · obtain ⟨j, hj, hji⟩ := List.mem_map.mp hmem
        subst hji
        simpa using ih j hj
    · rw [if_neg hoc] at h
      obtain ⟨j, hj, hji⟩ := List.mem_map.mp h
      subst hji
      simpa using ih j hj

/-- Every selected position belongs to some required column name. -/
theorem mem_selectIdxs (cols : List (Option String)) (i : Nat)
    (h : i ∈ selectIdxs cols) : ∃ rc ∈ requiredColumns, i ∈ colIndices cols rc := by
  unfold selectIdxs at h
  obtain ⟨l, hl, hil⟩ := List.mem_flatten.mp h
  obtain ⟨rc, hrc, hlrc⟩ := List.mem_map.mp hl
  subst hlrc
  exact ⟨rc, hrc, hil⟩

/-- At a position whose label is numeric-coerced, a coerced row holds either
a missing cell or a number. -/
theorem coerceRow_getD_numeric (cols : List (Option String)) (row : List Cell) (i : Nat)
    (h : isNumericLabel (cols.getD i none) = true) :
    (coerceRow cols row).getD i Cell.empty = Cell.empty ∨
    ∃ q, (coerceRow cols row).getD i Cell.empty = Cell.num q := by
  induction cols generalizing row i with
  | nil => simp [isNumericLabel] at h
  | cons oc cs ih =>
    cases i with
    | zero =>
      have h0 : isNumericLabel oc = true := by simpa using h
      cases row with
      | nil =>
        have he : (coerceRow (oc :: cs) []).getD 0 Cell.empty
            = toNumericCell Cell.empty := by
          simp [coerceRow, h0]
        rw [he]
        exact toNumericCell_num_or_empty Cell.empty
      | cons c rest =>
        have he : (coerceRow (oc :: cs) (c :: rest)).getD 0 Cell.empty
            = toNumericCell c := by
          simp [coerceRow, h0]
        rw [he]
        exact toNumericCell_num_or_empty c
    | succ j =>
      have hj : isNumericLabel (cs.getD j none) = true := by simpa using h
      cases row with
      | nil =>
        have he : (coerceRow (oc :: cs) []).getD (j + 1) Cell.empty
            = (coerceRow cs []).getD j Cell.empty := by
          simp [coerceRow]
        rw [he]
        exact ih [] j hj
      | cons c rest =>
        have he : (coerceRow (oc :: cs) (c :: rest)).getD (j + 1) Cell.empty
            = (coerceRow cs rest).getD j Cell.empty := by
          simp [coerceRow]
        rw [he]
        exact ih rest j hj

/-- When every listed name has a unique column, the projected labels are
exactly the listed names. -/
theorem projected_labels_of_unique (cols : List (Option String)) (names : List String)
    (h : ∀ rc ∈ names, (colIndices cols rc).length = 1) :
    ((names.map (fun rc => colIndices cols rc)).flatten).map (fun i => cols.getD i none)
      = names.map some := by
  induction names with
  | nil => rfl
  | cons nm rest ih =>
    have h1 := h nm (by simp)
    obtain ⟨i, hi⟩ : ∃ i, colIndices cols nm = [i] := by
      cases hc : colIndices cols nm with
      | nil =>
        rw [hc] at h1
        simp at h1
      | cons a t =>
        cases t with
        | nil => exact ⟨a, rfl⟩
        | cons b t2 =>
          rw [hc] at h1
          simp at h1
    have hgd : cols.getD i none = some nm :=
      colIndices_getD cols nm i (by rw [hi]; simp)
    simp only [List.map_cons, List.flatten_cons, List.map_append, hi,
      List.map_nil, List.singleton_append]
    rw [ih (fun rc hrc => h rc (List.mem_cons_of_mem _ hrc)), hgd]

/-- Shape of a surviving, projected row: it is as long as the output header,
every cell is present, and every cell under a numeric-coerced label is a
number. -/
theorem projectRow_shape (cols : List (Option String)) (row0 : List Cell)
    (hv : rowValid cols (coerceRow cols row0) = true) :
    (projectRow cols (coerceRow cols row0)).length = (outCols cols).length ∧
    ∀ p ∈ (outCols cols).zip (projectRow cols (coerceRow cols row0)),
      p.2.isNA = false ∧ (isNumericLabel p.1 = true → ∃ q, p.2 = Cell.num q) := by
  constructor
  · simp [projectRow, outCols]
  · intro p hp
    unfold outCols projectRow at hp
    rw [List.zip_map'] at hp
    obtain ⟨i, hi, hpe⟩ := List.mem_map.mp hp
    subst hpe
    obtain ⟨rc, hrc, hic⟩ := mem_selectIdxs cols i hi
    have hna : ((coerceRow cols row0).getD i Cell.empty).isNA = false := by
      have h1 : ((colIndices cols rc).all
          (fun j => !((coerceRow cols row0).getD j Cell.empty).isNA)) = true := by
        have := List.all_eq_true.mp hv rc hrc
        simpa using this
      have h2 := List.all_eq_true.mp h1 i hic
      simpa using h2
    refine ⟨hna, fun hnum => ?_⟩
    rcases coerceRow_getD_numeric cols row0 i hnum with hcase | hcase
    · rw [hcase] at hna
      simp [Cell.isNA] at hna
    · exact hcase

/-- Inversion of a successful load: the input parsed, the sheet was found with
at least two rows, all required columns were present, every numeric label was
unique, and the output is the filter-project pipeline applied to the data
rows under the computed output header. -/
theorem load_ok_inv (input : Except String Workbook) (df : DataFrame)
    (h : load_loan_data input = Except.ok df) :
    ∃ wb sheet r0 hdr dataRows,
      input = Except.ok wb ∧
      wb.sheets.find? (fun s => s.name == "Loan Data") = some sheet ∧
      sheet.rows = r0 :: hdr :: dataRows ∧
      requiredColumns.all (fun rc => (hdr.map headerName).contains (some rc)) = true ∧
      numericColumns.all (fun nm =>
        (colIndices (hdr.map headerName) nm).length == 1) = true ∧
      df = { cols := outCols (hdr.map headerName),
             rows := ((dataRows.map (coerceRow (hdr.map headerName))).filter
               (rowValid (hdr.map headerName))).map (projectRow (hdr.map headerName)) } := by
  unfold load_loan_data at h
  split at h
  · exact absurd h (by simp)
  rename_i wb
  split at h
  · exact absurd h (by simp)
  rename_i sheet hfind
  split at h
  · exact absurd h (by simp)
  · exact absurd h (by simp)
  rename_i r0 hdr dataRows hrows
  split at h
  · rename_i hall
    split at h
    · rename_i hnumall
      refine ⟨wb, sheet, r0, hdr, dataRows, rfl, hfind, hrows, hall, hnumall, ?_⟩
      exact (Except.ok.injEq _ _).mp h.symm
    · exact absurd h (by simp)
  · exact absurd h (by simp)

/-!
## Loan Calculator claims
-/

/-- C1 counterexample: with `loan_amount = 1000`, `interest = 0`,
`duration = 60` the guard is not taken, yet `calculate_apr` still returns `0`,
so APR zero is not *exactly* characterised by `loan_amount = 0 ∨ duration = 0`. -/
theorem calculate_apr_exactly_counterexample :
    (LoanCalculator.mk 1000 0 0 60).calculate_apr = 0 ∧
    (LoanCalculator.mk 1000 0 0 60).loan_amount ≠ 0 ∧
    (LoanCalculator.mk 1000 0 0 60).duration ≠ 0 := by
  refine ⟨?_, by norm_num, by norm_num⟩
  norm_num [LoanCalculator.calculate_apr]

/-- C1 (amended): `calculate_apr` returns `0` whenever `loan_amount = 0` or
`duration = 0` (for any interest value), the zero branch pre-empting the
division; otherwise it returns `interest / loan_amount * 365 / duration * 100`,
which is `0` exactly when `interest = 0`. -/
theorem calculate_apr_spec (c : LoanCalculator) :
    (c.loan_amount = 0 ∨ c.duration = 0 → c.calculate_apr = 0) ∧
    (c.loan_amount ≠ 0 → c.duration ≠ 0 →
      c.calculate_apr = c.interest / c.loan_amount * 365 / c.duration * 100 ∧
      (c.calculate_apr = 0 ↔ c.interest = 0)) := by
  unfold LoanCalculator.calculate_apr
  constructor
  · intro h
    rw [if_pos h]
  · intro h1 h2
    rw [if_neg (by tauto)]
    refine ⟨rfl, ?_, ?_⟩
    · intro h0
      field_simp at h0
      simpa using h0
    · intro h0
      rw [h0]
      simp

/-- Witness for C1's amended theorem at concrete calculators. -/
theorem calculate_apr_spec_witness :
    (LoanCalculator.mk 0 5 0 7).calculate_apr = 0 ∧
    (LoanCalculator.mk 1000 50 0 60).calculate_apr = 365 / 12 := by
  constructor
  · exact (calculate_apr_spec (LoanCalculator.mk 0 5 0 7)).1 (Or.inl rfl)
  · have h := ((calculate_apr_spec (LoanCalculator.mk 1000 50 0 60)).2
      (by norm_num) (by norm_num)).1
    rw [h]
    show (50 : ℚ) / 1000 * 365 / 60 * 100 = 365 / 12
    norm_num

/-- C2: `calculate_monthly_payment` divides the total repayment by the floored
month count `max (duration / 30) 1`; on `(1000, 50, 0, 60)` it returns `525`,
and on the 14-day loan with total repayment `600` the floor makes it `600`. -/
theorem calculate_monthly_payment_spec :
    (∀ c : LoanCalculator,
      c.calculate_monthly_payment = c.total_repayment / max (c.duration / 30) 1) ∧
    (LoanCalculator.mk 1000 50 0 60).calculate_monthly_payment = 525 ∧
    (LoanCalculator.mk 500 75 25 14).total_repayment = 600 ∧
    (LoanCalculator.mk 500 75 25 14).calculate_monthly_payment = 600 := by
  refine ⟨fun c => rfl, ?_, ?_, ?_⟩
  · norm_num [LoanCalculator.calculate_monthly_payment, LoanCalculator.total_repayment, max_def]
  · norm_num [LoanCalculator.total_repayment]
  · norm_num [LoanCalculator.calculate_monthly_payment, LoanCalculator.total_repayment, max_def]

/-- C5: `total_repayment` is the sum of loan amount, interest and late fee;
on `(500, 75, 25, 14)` the three metrics are `600`, `5475/14 ≈ 391.07` and
`600`. -/
theorem total_repayment_spec :
    (∀ c : LoanCalculator, c.total_repayment = c.loan_amount + c.interest + c.late_fee) ∧
    (LoanCalculator.mk 500 75 25 14).total_repayment = 600 ∧
    (LoanCalculator.mk 500 75 25 14).calculate_apr = 5475 / 14 ∧
    |(LoanCalculator.mk 500 75 25 14).calculate_apr - 39107 / 100| < 1 / 100 ∧
    (LoanCalculator.mk 500 75 25 14).calculate_monthly_payment = 600 := by
  have hapr : (LoanCalculator.mk 500 75 25 14).calculate_apr = 5475 / 14 := by
    norm_num [LoanCalculator.calculate_apr]
  refine ⟨fun c => rfl, ?_, hapr, ?_, ?_⟩
  · norm_num [LoanCalculator.total_repayment]
  · rw [hapr]
    rw [abs_lt]
    norm_num
  · norm_num [LoanCalculator.calculate_monthly_payment, LoanCalculator.total_repayment, max_def]

/-!
## Data loader claims
-/

deriving instance DecidableEq for Except

/-- A sample upload: a title row (promoted to the pandas header and then
replaced), the real header row with stray whitespace, one fully valid record
and one record with a non-numeric loan amount. -/
def sampleHeaderRow : List Cell :=
  [Cell.str " Loan ID ", Cell.str "Loan Amount ($C)", Cell.str "Duration",
   Cell.str "Interest ($C)", Cell.str "Late Fee & Interest ($C)", Cell.str "Total Payment ($C)"]

def sampleTitleRow : List Cell :=
  [Cell.str "Payday Loans Report", Cell.empty, Cell.empty, Cell.empty, Cell.empty, Cell.empty]

def sampleGoodRow : List Cell :=
  [Cell.str "L1", Cell.num 500, Cell.num 14, Cell.num 75, Cell.num 25, Cell.num 600]

def sampleBadRow : List Cell :=
  [Cell.str "L2", Cell.str "abc", Cell.num 30, Cell.num 10, Cell.num 5, Cell.num 100]

def sampleWb : Workbook :=
  ⟨[⟨"Loan Data", [sampleTitleRow, sampleHeaderRow, sampleGoodRow, sampleBadRow]⟩]⟩

def sampleDf : DataFrame :=
  { cols := requiredColumns.map some
    rows := [[Cell.str "L1", Cell.num 500, Cell.num 14, Cell.num 75, Cell.num 25, Cell.num 600]] }

/-- C3 counterexample: a header with a duplicated `Loan ID` label.  The load
succeeds — no numeric label is duplicated, so no `TypeError` intervenes — and
the output carries SEVEN columns (both `Loan ID` duplicates), not exactly the
six required ones; moreover `dropna` checks both duplicates, so the record
whose second `Loan ID` cell is empty is excluded even though its first
`Loan ID` is present. -/
def dupIdHeaderRow : List Cell :=
  [Cell.str "Loan ID", Cell.str "Loan ID", Cell.str "Loan Amount ($C)", Cell.str "Duration",
   Cell.str "Interest ($C)", Cell.str "Late Fee & Interest ($C)", Cell.str "Total Payment ($C)"]

def dupIdWb : Workbook :=
  ⟨[⟨"Loan Data",
     [[Cell.str "title"], dupIdHeaderRow,
      [Cell.str "L1", Cell.str "L1b", Cell.num 500, Cell.num 14, Cell.num 75,
       Cell.num 25, Cell.num 600],
      [Cell.str "L2", Cell.empty, Cell.num 800, Cell.num 30, Cell.num 40,
       Cell.num 10, Cell.num 840]]⟩]⟩

theorem loader_six_columns_counterexample :
    load_loan_data (Except.ok dupIdWb) = Except.ok
      { cols := [some "Loan ID", some "Loan ID", some "Loan Amount ($C)", some "Duration",
                 some "Interest ($C)", some "Late Fee & Interest ($C)", some "Total Payment ($C)"]
        rows := [[Cell.str "L1", Cell.str "L1b", Cell.num 500, Cell.num 14, Cell.num 75,
                  Cell.num 25, Cell.num 600]] } ∧
    ([some "Loan ID", some "Loan ID", some "Loan Amount ($C)", some "Duration",
      some "Interest ($C)", some "Late Fee & Interest ($C)",
      some "Total Payment ($C)"] : List (Option String)).length = 7 ∧
    (requiredColumns.map some).length = 6 := by
  refine ⟨?_, ?_, ?_⟩
  · decide
  · decide
  · decide

/-- C3 (amended): on every successful load the output columns are, for each
of the six required names in order, every header column bearing that trimmed
name — exactly the six required columns whenever `Loan ID` is not duplicated
(the five numeric names are always unique on success, a duplicated numeric
label being rejected as a load error); the surviving rows are the coerced
data rows that pass the expanded `dropna` test, projected to those columns
(so any row with a missing or non-numeric value under any required name is
excluded entirely); they form a sublist of the projections of all source data
rows, preserving source order; and in every output row each cell is present,
with every cell under a numeric-coerced label a number. -/
theorem loader_output_valid (wb : Workbook) (sheet : Sheet) (r0 hdr : List Cell)
    (dataRows : List (List Cell)) (df : DataFrame)
    (hfind : wb.sheets.find? (fun s => s.name == "Loan Data") = some sheet)
    (hrows : sheet.rows = r0 :: hdr :: dataRows)
    (hld : load_loan_data (Except.ok wb) = Except.ok df) :
    df.cols = outCols (hdr.map headerName) ∧
    ((hdr.map headerName).count (some "Loan ID") = 1 →
      df.cols = requiredColumns.map some) ∧
    df.rows = ((dataRows.map (coerceRow (hdr.map headerName))).filter
        (rowValid (hdr.map headerName))).map (projectRow (hdr.map headerName)) ∧
    df.rows.Sublist (dataRows.map (fun r =>
        projectRow (hdr.map headerName) (coerceRow (hdr.map headerName) r))) ∧
    ∀ r ∈ df.rows,
      r.length = df.cols.length ∧
      ∀ p ∈ df.cols.zip r, p.2.isNA = false ∧
        (isNumericLabel p.1 = true → ∃ q, p.2 = Cell.num q) := by
  obtain ⟨wb2, sheet2, r02, hdr2, dataRows2, hin, hfind2, hrows2, hall2, hnum2, hdf⟩ :=
    load_ok_inv _ _ hld
  injection hin with hwb
  subst hwb
  rw [hfind] at hfind2
  injection hfind2 with hsheet
  subst hsheet
  rw [hrows] at hrows2
  injection hrows2 with h1 hrest
  injection hrest with h2 h3
  subst h1
  subst h2
  subst h3
  subst hdf
  have huniq : ∀ nm ∈ numericColumns,
      (colIndices (hdr.map headerName) nm).length = 1 := by
    intro nm hnm
    have := List.all_eq_true.mp hnum2 nm hnm
    simpa using this
  refine ⟨rfl, ?_, rfl, ?_, ?_⟩
  · intro hcount
    show outCols (hdr.map headerName) = requiredColumns.map some
    unfold outCols selectIdxs
    apply projected_labels_of_unique
    intro rc hrc
    simp only [requiredColumns, List.mem_cons, List.not_mem_nil, or_false] at hrc
    rcases hrc with h | h | h | h | h | h
    · subst h
      rw [colIndices_length]
      exact hcount
    · subst h
      exact huniq _ (by simp [numericColumns])
    · subst h
      exact huniq _ (by simp [numericColumns])
    · subst h
      exact huniq _ (by simp [numericColumns])
    · subst h
      exact huniq _ (by simp [numericColumns])
    · subst h
      exact huniq _ (by simp [numericColumns])
  · have hsub : (((dataRows.map (coerceRow (hdr.map headerName))).filter
        (rowValid (hdr.map headerName))).map (projectRow (hdr.map headerName))).Sublist
        ((dataRows.map (coerceRow (hdr.map headerName))).map
          (projectRow (hdr.map headerName))) :=
      (List.filter_sublist _).map _
    rw [List.map_map] at hsub
    exact hsub
  · intro r hr
    obtain ⟨cr, hcrf, hproj⟩ := List.mem_map.mp hr
    have hcr := List.mem_filter.mp hcrf
    obtain ⟨row0, hrow0, hco⟩ := List.mem_map.mp hcr.1
    subst hco
    subst hproj
    exact projectRow_shape _ _ hcr.2

/-- Witness for C3 on the sample workbook, whose header labels are unique. -/
theorem loader_output_valid_witness :
    load_loan_data (Except.ok sampleWb) = Except.ok sampleDf ∧
    sampleDf.cols = requiredColumns.map some ∧
    sampleDf.rows.Sublist ([sampleGoodRow, sampleBadRow].map (fun r =>
      projectRow (sampleHeaderRow.map headerName)
        (coerceRow (sampleHeaderRow.map headerName) r))) ∧
    (Cell.num (25 : ℚ)).isNA = false ∧
    (isNumericLabel (some "Late Fee & Interest ($C)") = true →
      ∃ q, Cell.num (25 : ℚ) = Cell.num q) := by
  have h := loader_output_valid sampleWb
    ⟨"Loan Data", [sampleTitleRow, sampleHeaderRow, sampleGoodRow, sampleBadRow]⟩
    sampleTitleRow sampleHeaderRow [sampleGoodRow, sampleBadRow] sampleDf
    (by decide) rfl (by decide)
  have hrow := h.2.2.2.2
    [Cell.str "L1", Cell.num 500, Cell.num 14, Cell.num 75, Cell.num 25, Cell.num 600]
    (by decide)
  have hp := hrow.2 (some "Late Fee & Interest ($C)", Cell.num 25) (by decide)
  exact ⟨by decide, h.2.1 (by decide), h.2.2.2.1, hp.1, hp.2⟩

/-- C6: a workbook with no sheet literally named "Loan Data" is rejected with
the missing-sheet report and no dataset. -/
theorem missing_sheet_rejected (wb : Workbook)
    (h : ∀ s ∈ wb.sheets, s.name ≠ "Loan Data") :
    load_loan_data (Except.ok wb) = Except.error LoadErr.missingSheet ∧
    datasetOf (load_loan_data (Except.ok wb)) = none ∧
    reportMessage LoadErr.missingSheet
      = "The uploaded file must contain a sheet named \x27Loan Data\x27." := by
  have hf : wb.sheets.find? (fun s => s.name == "Loan Data") = none := by
    apply List.find?_eq_none.mpr
    intro s hs
    simpa using h s hs
  have hmain : load_loan_data (Except.ok wb) = Except.error LoadErr.missingSheet := by
    simp [load_loan_data, hf]
  exact ⟨hmain, by rw [hmain]; rfl, rfl⟩

/-- Witness for C6: a workbook with a single differently named sheet. -/
theorem missing_sheet_rejected_witness :
    load_loan_data (Except.ok ⟨[⟨"Other", []⟩]⟩) = Except.error LoadErr.missingSheet ∧
    datasetOf (load_loan_data (Except.ok ⟨[⟨"Other", []⟩]⟩)) = none ∧
    reportMessage LoadErr.missingSheet
      = "The uploaded file must contain a sheet named \x27Loan Data\x27." :=
  missing_sheet_rejected ⟨[⟨"Other", []⟩]⟩ (by decide)

/-- C7: if the "Loan Data" sheet is found but, after promoting the first data
row to the header and trimming whitespace, some required column is missing,
the load fails with the missing-columns report and no dataset is produced. -/
theorem missing_columns_rejected (wb : Workbook) (sheet : Sheet) (r0 hdr : List Cell)
    (dataRows : List (List Cell))
    (hfind : wb.sheets.find? (fun s => s.name == "Loan Data") = some sheet)
    (hrows : sheet.rows = r0 :: hdr :: dataRows)
    (hmiss : ∃ rc ∈ requiredColumns, some rc ∉ hdr.map headerName) :
    load_loan_data (Except.ok wb) = Except.error LoadErr.missingColumns ∧
    datasetOf (load_loan_data (Except.ok wb)) = none := by
  have hall : requiredColumns.all
      (fun rc => (hdr.map headerName).contains (some rc)) = false := by
    rw [List.all_eq_false]
    obtain ⟨rc, hrc, hnot⟩ := hmiss
    exact ⟨rc, hrc, fun hc => hnot (List.mem_of_elem_eq_true hc)⟩
  have hmain : load_loan_data (Except.ok wb) = Except.error LoadErr.missingColumns := by
    simp only [load_loan_data, hfind, hrows, hall]
    rfl
  exact ⟨hmain, by rw [hmain]; rfl⟩

/-- Witness for C7: a "Loan Data" sheet whose promoted header only has the
Loan ID column. -/
theorem missing_columns_rejected_witness :
    load_loan_data (Except.ok ⟨[⟨"Loan Data",
      [[Cell.str "title"], [Cell.str "Loan ID"]]⟩]⟩) = Except.error LoadErr.missingColumns ∧
    datasetOf (load_loan_data (Except.ok ⟨[⟨"Loan Data",
      [[Cell.str "title"], [Cell.str "Loan ID"]]⟩]⟩)) = none :=
  missing_columns_rejected ⟨[⟨"Loan Data", [[Cell.str "title"], [Cell.str "Loan ID"]]⟩]⟩
    ⟨"Loan Data", [[Cell.str "title"], [Cell.str "Loan ID"]]⟩
    [Cell.str "title"] [Cell.str "Loan ID"] [] (by decide) rfl
    ⟨"Loan Amount ($C)", by decide, by decide⟩

/-- C8: the loader is total towards its caller: every input yields either a
dataset with no error, or no dataset together with a nonempty report — and an
exception raised while reading the file is caught and surfaced as the
catch-all load error rather than propagated. -/
theorem loader_total :
    (∀ input, (∃ df, load_loan_data input = Except.ok df ∧
        datasetOf (load_loan_data input) = some df) ∨
      (∃ e, load_loan_data input = Except.error e ∧
        datasetOf (load_loan_data input) = none ∧ 0 < (reportMessage e).length)) ∧
    (∀ msg, load_loan_data (Except.error msg)
      = Except.error (LoadErr.loadError msg)) := by
  constructor
  · intro input
    cases hres : load_loan_data input with
    | ok df =>
      left
      exact ⟨df, rfl, rfl⟩
    | error e =>
      right
      refine ⟨e, rfl, rfl, ?_⟩
      cases e with
      | missingSheet => decide
      | missingColumns => decide
      | loadError m =>
        show 0 < ("Error loading data: " ++ m).length
        rw [String.length_append]
        have h20 : 0 < "Error loading data: ".length := by decide
        omega
  · intro msg
    rfl

/-- C9 counterexample: a source row whose Late Fee & Interest cell is
absent — with every other required value valid — is excluded by the loader
(Late Fee & Interest is part of the `dropna` subset), not loaded with a
default late fee of 0: the output contains only the other record. -/
def lateFeeWb : Workbook :=
  ⟨[⟨"Loan Data",
     [sampleTitleRow, sampleHeaderRow,
      [Cell.str "L1", Cell.num 500, Cell.num 14, Cell.num 75, Cell.num 25, Cell.num 600],
      [Cell.str "L2", Cell.num 800, Cell.num 30, Cell.num 40, Cell.empty, Cell.num 840]]⟩]⟩

theorem late_fee_optional_counterexample :
    load_loan_data (Except.ok lateFeeWb) = Except.ok
      { cols := requiredColumns.map some
        rows := [[Cell.str "L1", Cell.num 500, Cell.num 14, Cell.num 75,
          Cell.num 25, Cell.num 600]] } := by
  decide

/-- C9 (amended): the selection-time extraction (line 120) does use `0` for a
null Late Fee & Interest cell and the cell's value when present; but the
loader excludes any row with a missing Late Fee & Interest value, so every
loaded record already has a numeric value in that column and the default
never applies to a loaded record. -/
theorem late_fee_handling :
    (∀ c : Cell, c.isNA = true → extract_late_fee c = Cell.num 0) ∧
    (∀ c : Cell, c.isNA = false → extract_late_fee c = c) ∧
    (∀ input df, load_loan_data input = Except.ok df →
      ∀ r ∈ df.rows, ∀ p ∈ df.cols.zip r,
        p.1 = some "Late Fee & Interest ($C)" → ∃ q, p.2 = Cell.num q) := by
  refine ⟨?_, ?_, ?_⟩
  · intro c h
    simp [extract_late_fee, h]
  · intro c h
    simp [extract_late_fee, h]
  · intro input df hld r hr p hp hlab
    obtain ⟨wb, sheet, r0, hdr, dataRows, hin, hfind, hrows, hall, hnum, hdf⟩ :=
      load_ok_inv input df hld
    subst hdf
    obtain ⟨cr, hcrf, hproj⟩ := List.mem_map.mp hr
    have hcr := List.mem_filter.mp hcrf
    obtain ⟨row0, hrow0, hco⟩ := List.mem_map.mp hcr.1
    subst hco
    subst hproj
    have hshape := (projectRow_shape _ _ hcr.2).2 p hp
    apply hshape.2
    rw [hlab]
    decide

/-- Witness for C9's amended theorem: both extraction branches at concrete
cells, and the loaded sample row's Late Fee cell is numeric. -/
theorem late_fee_handling_witness :
    extract_late_fee Cell.empty = Cell.num 0 ∧
    extract_late_fee (Cell.num 25) = Cell.num 25 ∧
    ∃ q, Cell.num (25 : ℚ) = Cell.num q :=
  ⟨late_fee_handling.1 Cell.empty rfl,
   late_fee_handling.2.1 (Cell.num 25) rfl,
   late_fee_handling.2.2 (Except.ok sampleWb) sampleDf (by decide)
     [Cell.str "L1", Cell.num 500, Cell.num 14, Cell.num 75, Cell.num 25, Cell.num 600]
     (by decide)
     (some "Late Fee & Interest ($C)", Cell.num 25) (by decide) rfl⟩

/-!
## Session state synchronizer claims
-/

/-- C4 counterexample: `investment_amount` is never written anywhere in the
program, so in a session state where it is absent, editing `roi_percentage`
raises `KeyError` instead of recomputing `initial_investment`; and when it is
present but `0`, editing `initial_investment` raises `ZeroDivisionError`
instead of recomputing `roi_percentage`. -/
theorem sync_edit_counterexample :
    editRoi { initial_investment := 1000, roi_percentage := 5, investment_amount := none } 10
      = Except.error "KeyError: \x27investment_amount\x27" ∧
    editInvestment { initial_investment := 1000, roi_percentage := 5, investment_amount := some 0 } 200
      = Except.error "ZeroDivisionError: float division by zero" := by
  constructor
  · rfl
  · rfl

/-- C4 (amended): in any session state where `investment_amount` is present,
editing `roi_percentage` to `x` immediately recomputes
`initial_investment = (x / 100) * investment_amount`; and provided
`investment_amount ≠ 0`, editing `initial_investment` to `x` recomputes
`roi_percentage = (x / investment_amount) * 100`. -/
theorem sync_edit_spec (st : SyncState) (x ia : ℚ)
    (h : st.investment_amount = some ia) :
    editRoi st x = Except.ok
      { initial_investment := x / 100 * ia, roi_percentage := x,
        investment_amount := some ia } ∧
    (ia ≠ 0 → editInvestment st x = Except.ok
      { initial_investment := x, roi_percentage := x / ia * 100,
        investment_amount := some ia }) := by
  obtain ⟨inv, roi, iaOpt⟩ := st
  have h' : iaOpt = some ia := h
  subst h'
  constructor
  · rfl
  · intro hne
    simp [editInvestment, update_roi, hne]

/-- Witness for C4's amended theorem at a concrete session state. -/
theorem sync_edit_spec_witness :
    editRoi { initial_investment := 1000, roi_percentage := 5, investment_amount := some 2000 } 10
      = Except.ok { initial_investment := 200, roi_percentage := 10, investment_amount := some 2000 } ∧
    editInvestment { initial_investment := 1000, roi_percentage := 5, investment_amount := some 2000 } 500
      = Except.ok { initial_investment := 500, roi_percentage := 25, investment_amount := some 2000 } := by
  have h := sync_edit_spec ⟨1000, 5, some 2000⟩ 10 2000 rfl
  have h2 := sync_edit_spec ⟨1000, 5, some 2000⟩ 500 2000 rfl
  constructor
  · rw [h.1]
    norm_num
  · rw [h2.2 (by norm_num)]
    norm_num

/-- C10: when `investment_amount` is present and nonzero, the two callbacks
invert each other: `update_roi` then `update_investment` restores
`initial_investment`, and `update_investment` then `update_roi` restores
`roi_percentage`. -/
theorem sync_handlers_inverse (st : SyncState) (ia : ℚ)
    (h : st.investment_amount = some ia) (hne : ia ≠ 0) :
    (∃ st1 st2, update_roi st = Except.ok st1 ∧ update_investment st1 = Except.ok st2 ∧
      st2.initial_investment = st.initial_investment) ∧
    (∃ st1 st2, update_investment st = Except.ok st1 ∧ update_roi st1 = Except.ok st2 ∧
      st2.roi_percentage = st.roi_percentage) := by
  obtain ⟨inv, roi, iaOpt⟩ := st
  have h' : iaOpt = some ia := h
  subst h'
  constructor
  · refine ⟨⟨inv, inv / ia * 100, some ia⟩,
      ⟨inv / ia * 100 / 100 * ia, inv / ia * 100, some ia⟩, ?_, rfl, ?_⟩
    · simp [update_roi, hne]
    · show inv / ia * 100 / 100 * ia = inv
      field_simp
      ring
  · refine ⟨⟨roi / 100 * ia, roi, some ia⟩,
      ⟨roi / 100 * ia, roi / 100 * ia / ia * 100, some ia⟩, rfl, ?_, ?_⟩
    · simp [update_roi, hne]
    · show roi / 100 * ia / ia * 100 = roi
      field_simp
      ring

/-- Witness for C10 at a concrete session state. -/
theorem sync_handlers_inverse_witness :
    (∃ st1 st2, update_roi ⟨1000, 5, some 2000⟩ = Except.ok st1 ∧
      update_investment st1 = Except.ok st2 ∧
      st2.initial_investment = (1000 : ℚ)) ∧
    (∃ st1 st2, update_investment ⟨1000, 5, some 2000⟩ = Except.ok st1 ∧
      update_roi st1 = Except.ok st2 ∧
      st2.roi_percentage = (5 : ℚ)) :=
  sync_handlers_inverse ⟨1000, 5, some 2000⟩ 2000 rfl (by norm_num)
